import Mathlib

/-!
Verification of the Comercial García inventory application core:
the inventory ledger (InventoryManager, inventory-manager module) and the
authentication/lockout state machine (AuthenticationSystem, auth module).

The JavaScript source is shallowly embedded: every mutating method becomes a
pure function threading the manager / guard state explicitly; thrown errors
become an error value returned together with the unchanged state (in the
source every throw happens before any mutation of the touched record, except
where noted); timestamps (Date.now, toISOString) become an explicit natural
number parameter; the IndexedDB store becomes a pair of lists mirroring the
products and sales object stores.  Strings are modelled with Lean strings and
an ASCII model of toUpperCase/trim; numeric product fields are modelled
post-parse (price as a rational after parseFloat, quantity and minStock as
integers after parseInt).
-/

namespace ComercialGarcia

/-- Model of the JavaScript string method toUpperCase, restricted to ASCII
(the SKUs and identifiers of this application are ASCII); implemented on
the character list so that it evaluates inside the kernel. -/
def jsToUpper (s : String) : String :=
  String.mk (s.data.map Char.toUpper)

/-- ASCII whitespace recognizer for the trim model. -/
def jsIsWs (c : Char) : Bool :=
  c == ' ' || c == '\t' || c == '\n' || c == '\r'

/-- Model of the JavaScript string method trim, restricted to ASCII
whitespace: drop whitespace from both ends. -/
def jsTrim (s : String) : String :=
  String.mk (((s.data.dropWhile jsIsWs).reverse.dropWhile jsIsWs).reverse)

/-- Model of the JavaScript idiom `x ? x.trim() : null` used by
createProduct for the optional barcode and supplier fields: an absent or
empty (falsy) string becomes null, a non-empty one is trimmed. -/
def jsOptTrim (o : Option String) : Option String :=
  match o with
  | none => none
  | some s => if s = "" then none else some (jsTrim s)

/-- JavaScript truthiness of an optional string (null and the empty string
are falsy). -/
def jsTruthyStr (o : Option String) : Bool :=
  match o with
  | none => false
  | some s => s ≠ ""

/-- Product record, as constructed by InventoryManager.createProduct.
Timestamps createdAt/updatedAt are modelled as natural numbers. -/
structure Product where
  id : Nat
  sku : String
  name : String
  category : String
  price : ℚ
  quantity : Int
  minStock : Int
  barcode : Option String
  supplier : Option String
  createdAt : Nat
  updatedAt : Nat
deriving Repr, DecidableEq

/-- Sale record appended by InventoryManager.processSale (sku, name and
unitPrice are snapshots of the product at sale time). -/
structure Sale where
  productId : Nat
  sku : String
  name : String
  quantity : Int
  unitPrice : ℚ
  total : ℚ
  date : Nat
deriving Repr, DecidableEq

/-- The IndexedDB-backed store (database module): the products and sales
object stores, modelled as lists in insertion order. -/
structure DB where
  products : List Product
  sales : List Sale
deriving Repr, DecidableEq

/-- State of an InventoryManager instance: the external store, the in-memory
inventory array and the id counter nextId. -/
structure InventoryManager where
  db : DB
  inventory : List Product
  nextId : Nat
deriving Repr, DecidableEq

/-- Errors thrown by the ledger operations.  Each constructor corresponds to
one throw site of the source (the source throws Error values with Spanish
messages; the spec groups them into ValidationError, DuplicateError,
NotFoundError, InsufficientStockError and NegativeStockError). -/
inductive InvError where
  | notFound
  | insufficientStock (available : Int)
  | negativeStockAdjust
  | duplicateSKU (sku : String)
  | duplicateBarcode (barcode : String)
  | requiredField (field : String)
  | negativePrice
  | negativeQuantity
  | negativeMinStock
  | skuTooShort
  | nameTooShort
deriving Repr, DecidableEq

/-- Classification of an error as a ValidationError of the spec taxonomy
(the checks performed by InventoryManager.validateProduct). -/
def InvError.isValidation : InvError → Bool
  | .requiredField _ => true
  | .negativePrice => true
  | .negativeQuantity => true
  | .negativeMinStock => true
  | .skuTooShort => true
  | .nameTooShort => true
  | _ => false

/-- Classification of an error as a DuplicateError of the spec taxonomy
(the duplicate SKU / duplicate barcode checks of addProduct). -/
def InvError.isDuplicate : InvError → Bool
  | .duplicateSKU _ => true
  | .duplicateBarcode _ => true
  | _ => false

/-- Input accepted by createProduct, with optional barcode and supplier.
Numeric fields are modelled after parseFloat/parseInt have run. -/
structure ProductInput where
  sku : String
  name : String
  category : String
  price : ℚ
  quantity : Int
  minStock : Int
  barcode : Option String
  supplier : Option String
deriving Repr, DecidableEq

/-- Model of Array.prototype.findIndex on id followed by index assignment,
as used by InventoryManager.updateProduct: replace the first element whose
id equals the id of the given record, leave the list unchanged when the id
is absent. -/
def replaceById (l : List Product) (prod : Product) : List Product :=
  match l with
  | [] => []
  | q :: rest => if q.id == prod.id then prod :: rest else q :: replaceById rest prod

/-- Model of IndexedDB put on the products store (keyPath id): overwrite the
record with the same id, or insert when absent. -/
def dbPutProduct (l : List Product) (prod : Product) : List Product :=
  if l.any (fun q => q.id == prod.id) then replaceById l prod else l ++ [prod]

/-- InventoryManager.createProduct: pure construction of a product record
from input data, assigning the next id and both timestamps; the source
performs no validation here. -/
def createProduct (m : InventoryManager) (now : Nat) (input : ProductInput) :
    Product × InventoryManager :=
  ({ id := m.nextId
     sku := jsToUpper (jsTrim input.sku)
     name := jsTrim input.name
     category := input.category
     price := input.price
     quantity := input.quantity
     minStock := input.minStock
     barcode := jsOptTrim input.barcode
     supplier := jsOptTrim input.supplier
     createdAt := now
     updatedAt := now },
   { m with nextId := m.nextId + 1 })

/-- InventoryManager.validateProduct: required-field checks (on the fields
of the constructed product the required check can only fire on an empty
string, since the numeric fields are modelled post-parse), non-negativity of
price, quantity and minStock, and the minimum lengths of sku and name, in
source order. -/
def validateProduct (p : Product) : Except InvError Unit :=
  if p.sku = "" then .error (.requiredField "sku")
  else if p.name = "" then .error (.requiredField "name")
  else if p.category = "" then .error (.requiredField "category")
  else if p.price < 0 then .error .negativePrice
  else if p.quantity < 0 then .error .negativeQuantity
  else if p.minStock < 0 then .error .negativeMinStock
  else if p.sku.length < 3 then .error .skuTooShort
  else if p.name.length < 3 then .error .nameTooShort
  else .ok ()

/-- InventoryManager.getProductBySKU: in-memory find on the upper-cased SKU,
falling back to the store index lookup (which also compares against the
upper-cased argument). -/
def getProductBySKU (m : InventoryManager) (sku : String) : Option Product :=
  match m.inventory.find? (fun p => p.sku == jsToUpper sku) with
  | some p => some p
  | none => m.db.products.find? (fun p => p.sku == jsToUpper sku)

/-- InventoryManager.getProductByBarcode: in-memory find on the exact
barcode, falling back to the store barcode index. -/
def getProductByBarcode (m : InventoryManager) (barcode : String) : Option Product :=
  match m.inventory.find? (fun p => p.barcode == some barcode) with
  | some p => some p
  | none => m.db.products.find? (fun p => p.barcode == some barcode)

/-- InventoryManager.findProduct: resolve an identifier as an upper-cased
SKU against the in-memory inventory first, then as a barcode. -/
def findProduct (m : InventoryManager) (identifier : String) : Option Product :=
  match m.inventory.find? (fun p => p.sku == jsToUpper identifier) with
  | some p => some p
  | none => getProductByBarcode m identifier

/-- InventoryManager.updateProduct: stamp updatedAt, put to the store, and
replace the in-memory entry with the same id (no-op when absent); returns
the stamped record. -/
def updateProduct (now : Nat) (m : InventoryManager) (product : Product) :
    Product × InventoryManager :=
  let product := { product with updatedAt := now }
  (product,
   { m with
     db := { m.db with products := dbPutProduct m.db.products product }
     inventory := replaceById m.inventory product })

/-- InventoryManager.addProduct: validate, reject a duplicate SKU (via
getProductBySKU on the upper-cased SKU) or, when the barcode is truthy, a
duplicate barcode; otherwise append to the store and the in-memory
inventory.  Every throw happens before any mutation. -/
def addProduct (m : InventoryManager) (product : Product) :
    Except InvError Product × InventoryManager :=
  match validateProduct product with
  | .error e => (.error e, m)
  | .ok _ =>
    if (getProductBySKU m product.sku).isSome then
      (.error (.duplicateSKU product.sku), m)
    else if jsTruthyStr product.barcode &&
        (getProductByBarcode m (product.barcode.getD "")).isSome then
      (.error (.duplicateBarcode (product.barcode.getD "")), m)
    else
      (.ok product,
       { m with
         db := { m.db with products := m.db.products ++ [product] }
         inventory := m.inventory ++ [product] })

/-- InventoryManager.deleteProduct: fail when no in-memory product has the
id, otherwise delete from the store and filter the in-memory inventory. -/
def deleteProduct (m : InventoryManager) (productId : Nat) :
    Except InvError Bool × InventoryManager :=
  match m.inventory.find? (fun p => p.id == productId) with
  | none => (.error .notFound, m)
  | some _ =>
    (.ok true,
     { m with
       db := { m.db with products := m.db.products.filter (fun p => !(p.id == productId)) }
       inventory := m.inventory.filter (fun p => !(p.id == productId)) })

/-- InventoryManager.processSale: resolve the identifier, reject when the
available quantity is below the requested one, otherwise decrement the
quantity, persist via updateProduct, and append a sale record whose sku,
name and unitPrice are snapshots of the product and whose total is
unitPrice times the quantity sold. -/
def processSale (now : Nat) (m : InventoryManager) (identifier : String)
    (quantity : Int) : Except InvError (Sale × Product) × InventoryManager :=
  match findProduct m identifier with
  | none => (.error .notFound, m)
  | some product =>
    if product.quantity < quantity then
      (.error (.insufficientStock product.quantity), m)
    else
      let product := { product with quantity := product.quantity - quantity }
      let pm := updateProduct now m product
      let sale : Sale :=
        { productId := pm.1.id
          sku := pm.1.sku
          name := pm.1.name
          quantity := quantity
          unitPrice := pm.1.price
          total := pm.1.price * (quantity : ℚ)
          date := now }
      (.ok (sale, pm.1),
       { pm.2 with db := { pm.2.db with sales := pm.2.db.sales ++ [sale] } })

/-- InventoryManager.restockProduct: resolve the identifier and increment
the quantity by the given amount (no upper bound), persisting via
updateProduct. -/
def restockProduct (now : Nat) (m : InventoryManager) (identifier : String)
    (quantity : Int) : Except InvError Product × InventoryManager :=
  match findProduct m identifier with
  | none => (.error .notFound, m)
  | some product =>
    let product := { product with quantity := product.quantity + quantity }
    let pm := updateProduct now m product
    (.ok pm.1, pm.2)

/-- InventoryManager.adjustStock: look up by id only, reject a resulting
negative quantity, otherwise apply the delta and persist via
updateProduct. -/
def adjustStock (now : Nat) (m : InventoryManager) (productId : Nat)
    (adjustment : Int) : Except InvError Product × InventoryManager :=
  match m.inventory.find? (fun p => p.id == productId) with
  | none => (.error .notFound, m)
  | some product =>
    let newQuantity := product.quantity + adjustment
    if newQuantity < 0 then (.error .negativeStockAdjust, m)
    else
      let pm := updateProduct now m { product with quantity := newQuantity }
      (.ok pm.1, pm.2)

/-- InventoryManager.loadInventoryFromDB: replace the in-memory inventory
with the store contents and, when non-empty, reset nextId to the maximum
stored id plus one. -/
def loadInventoryFromDB (m : InventoryManager) : InventoryManager :=
  let inv := m.db.products
  { m with
    inventory := inv
    nextId := if 0 < inv.length then (inv.map Product.id).foldl max 0 + 1 else m.nextId }

/-- Convenience: the set of products visible to the duplicate checks of
addProduct (the in-memory inventory followed by the store contents). -/
def allProducts (m : InventoryManager) : List Product :=
  m.inventory ++ m.db.products

/-- Manager state with empty store and inventory, as after constructing an
InventoryManager (nextId starts at 1). -/
def emptyManager : InventoryManager :=
  { db := { products := [], sales := [] }, inventory := [], nextId := 1 }

/-- Sample ledger product used by the concrete witnesses (modelled on the
TOR001 sample product of the source's demo data, with an integer price so
the witnesses evaluate inside the kernel). -/
def wProduct : Product :=
  { id := 1, sku := "TOR001", name := "Tornillo", category := "Tornillos",
    price := 25, quantity := 150, minStock := 20,
    barcode := some "1234567890123", supplier := none, createdAt := 0, updatedAt := 0 }

/-- Manager holding the sample product, used by the concrete witnesses. -/
def wManager : InventoryManager :=
  { db := { products := [wProduct], sales := [] }, inventory := [wProduct], nextId := 2 }

/-- Input with a negative price and all fields present, used to exhibit
that createProduct performs no validation. -/
def badInput : ProductInput :=
  { sku := "ABC", name := "Widget", category := "General", price := -1,
    quantity := 0, minStock := 0, barcode := none, supplier := none }

/-- The (invalid) product createProduct constructs from badInput. -/
def badProduct : Product :=
  (createProduct emptyManager 0 badInput).1

/-- First product input of the id-reuse scenario. -/
def c6inputA : ProductInput :=
  { sku := "AAA111", name := "Alpha", category := "Cat", price := 1,
    quantity := 5, minStock := 1, barcode := none, supplier := none }

/-- Second product input of the id-reuse scenario. -/
def c6inputB : ProductInput :=
  { sku := "BBB222", name := "Beta", category := "Cat", price := 2,
    quantity := 5, minStock := 1, barcode := none, supplier := none }

/-- Id-reuse scenario, step 1: create the first product (id 1). -/
def c6created1 : Product × InventoryManager := createProduct emptyManager 0 c6inputA

/-- Id-reuse scenario, step 2: add the first product. -/
def c6s1 : InventoryManager := (addProduct c6created1.2 c6created1.1).2

/-- Id-reuse scenario, step 3: create the second product (id 2). -/
def c6created2 : Product × InventoryManager := createProduct c6s1 1 c6inputB

/-- Id-reuse scenario, step 4: add the second product. -/
def c6s2 : InventoryManager := (addProduct c6created2.2 c6created2.1).2

/-- Id-reuse scenario, step 5: delete the second product by its id. -/
def c6s3 : InventoryManager := (deleteProduct c6s2 c6created2.1.id).2

/-- Id-reuse scenario, step 6: reload the inventory from the store, which
resets nextId to the maximum surviving id plus one. -/
def c6s4 : InventoryManager := loadInventoryFromDB c6s3

/-- Id-reuse scenario, step 7: create another product after the reload. -/
def c6created3 : Product × InventoryManager := createProduct c6s4 2 c6inputB

/-- Existing product of the duplicate-check witnesses (uppercase SKU and a
barcode). -/
def w4p1 : Product :=
  { id := 1, sku := "ABC001", name := "Alpha", category := "Cat", price := 1,
    quantity := 3, minStock := 1, barcode := some "111", supplier := none,
    createdAt := 0, updatedAt := 0 }

/-- Manager holding w4p1, used by the duplicate-check witnesses. -/
def w4m : InventoryManager :=
  { db := { products := [w4p1], sales := [] }, inventory := [w4p1], nextId := 2 }

/-- Candidate product whose SKU differs from w4p1 only in case. -/
def w4dupSku : Product :=
  { id := 2, sku := "abc001", name := "Second", category := "Cat", price := 2,
    quantity := 1, minStock := 0, barcode := none, supplier := none,
    createdAt := 0, updatedAt := 0 }

/-- Candidate product with a distinct SKU but the same barcode as w4p1. -/
def w4dupBar : Product :=
  { id := 2, sku := "XYZ999", name := "Gamma", category := "Cat", price := 2,
    quantity := 1, minStock := 0, barcode := some "111", supplier := none,
    createdAt := 0, updatedAt := 0 }

/-- Candidate product with no conflict against w4p1. -/
def w4ok : Product :=
  { id := 2, sku := "QQQ777", name := "Delta", category := "Cat", price := 2,
    quantity := 1, minStock := 0, barcode := none, supplier := none,
    createdAt := 0, updatedAt := 0 }

/-!
Authentication system (AuthenticationSystem of the auth module).  The
localStorage cells for the failed-attempt counter and the lockout deadline
become optional fields (a removed key is none); Date.now becomes an
explicit parameter; the random sessionId and the DOM/timer machinery are
outside the model.
-/

/-- Truncation of an integer to a signed 32-bit value, as performed by the
JavaScript bitwise operations in hashPassword. -/
def to32 (n : Int) : Int :=
  ((n + 2147483648) % 4294967296) - 2147483648

/-- One step of AuthenticationSystem.hashPassword: shift the accumulator
left by five bits (with 32-bit wrap), subtract the accumulator, add the
character code, and truncate back to 32 bits. -/
def hashStep (hash : Int) (c : Nat) : Int :=
  to32 (to32 (hash * 32) - hash + (c : Int))

/-- AuthenticationSystem.hashPassword: fold hashStep over the character
codes starting from zero, then render the absolute value in lowercase
hexadecimal. -/
def hashPassword (password : String) : String :=
  String.mk (Nat.toDigits 16 (password.data.foldl (fun h c => hashStep h c.toNat) 0).natAbs)

/-- Session record persisted by createSession (the random sessionId is not
modelled). -/
structure SessionRec where
  user : String
  loginTime : Nat
  lastActivity : Nat
deriving Repr, DecidableEq

/-- State of an AuthenticationSystem instance: live authentication flag and
user, the credential table (username to stored password hash), and the
localStorage-backed failed-attempt counter, lockout deadline and session. -/
structure AuthState where
  isAuthenticated : Bool
  currentUser : Option String
  credentials : List (String × String)
  attempts : Option Nat
  lockoutUntil : Option Nat
  session : Option SessionRec
deriving Repr, DecidableEq

/-- Result object returned by AuthenticationSystem.authenticate; keys the
source omits are modelled by their JavaScript-falsy defaults. -/
structure AuthResult where
  success : Bool
  message : String
  isLockedOut : Bool := false
  attempts : Option Nat := none
  remainingAttempts : Option Nat := none
  user : Option String := none
deriving Repr, DecidableEq

/-- Configured maximum of failed attempts (this.maxAttempts = 3). -/
def maxAttempts : Nat := 3

/-- Configured lockout duration in milliseconds (15 minutes). -/
def lockoutDuration : Nat := 900000

/-- AuthenticationSystem.isLockedOut, including its side effect: while the
current time is before the stored deadline the guard is locked; once the
deadline has passed (or when none is stored) it is not, and an expired
deadline is cleared together with the failed-attempt counter. -/
def isLockedOutStep (now : Nat) (st : AuthState) : Bool × AuthState :=
  match st.lockoutUntil with
  | some lockoutEnd =>
    if now < lockoutEnd then (true, st)
    else (false, { st with lockoutUntil := none, attempts := none })
  | none => (false, st)

/-- AuthenticationSystem.getRemainingLockoutTime: milliseconds until the
stored deadline, clamped at zero. -/
def getRemainingLockoutTime (now : Nat) (st : AuthState) : Nat :=
  match st.lockoutUntil with
  | some lockoutEnd => lockoutEnd - now
  | none => 0

/-- Credential comparison of authenticate: the stored hash for the username
must exist, be truthy (non-empty), and equal the supplied hash. -/
def credCheck (creds : List (String × String)) (username hashed : String) : Bool :=
  match creds.lookup username with
  | some stored => !(stored == "") && (stored == hashed)
  | none => false

/-- AuthenticationSystem.authenticate: when locked out, return the lockout
result without touching the counter or the credentials; otherwise hash the
password, compare against the credential table, and either succeed
(creating a session and clearing the counter and lockout) or increment the
counter, installing the lockout deadline when the maximum is reached. -/
def authenticate (now : Nat) (st : AuthState) (username password : String) :
    AuthResult × AuthState :=
  let ls := isLockedOutStep now st
  let st1 := ls.2
  if ls.1 then
    let remainingTime := (getRemainingLockoutTime now st1 + 59999) / 60000
    ({ success := false
       message := "Cuenta bloqueada. Intente nuevamente en " ++ toString remainingTime
         ++ " minutos."
       isLockedOut := true }, st1)
  else
    let hashedPassword := hashPassword password
    let attempts := st1.attempts.getD 0
    if credCheck st1.credentials username hashedPassword then
      ({ success := true, message := "Acceso autorizado", user := some username },
       { st1 with
         isAuthenticated := true
         currentUser := some username
         session := some { user := username, loginTime := now, lastActivity := now }
         attempts := none
         lockoutUntil := none })
    else
      let newAttempts := attempts + 1
      if maxAttempts ≤ newAttempts then
        ({ success := false
           message := "Demasiados intentos fallidos. Cuenta bloqueada por 15 minutos."
           isLockedOut := true
           attempts := some newAttempts },
         { st1 with attempts := some newAttempts, lockoutUntil := some (now + lockoutDuration) })
      else
        ({ success := false
           message := "Credenciales incorrectas. " ++ toString (maxAttempts - newAttempts)
             ++ " intentos restantes."
           attempts := some newAttempts
           remainingAttempts := some (maxAttempts - newAttempts) },
         { st1 with attempts := some newAttempts })

/-- Credential table installed by the AuthenticationSystem constructor. -/
def defaultCredentials : List (String × String) :=
  [("admin", hashPassword "CG2024"),
   ("gerente", hashPassword "FERR2024"),
   ("vendedor", hashPassword "VENTA2024")]

/-- Guard state after construction against fresh storage: not
authenticated, default credentials, no stored attempts, lockout or
session. -/
def initialAuthState : AuthState :=
  { isAuthenticated := false
    currentUser := none
    credentials := defaultCredentials
    attempts := none
    lockoutUntil := none
    session := none }

/-- Guard state reached after the third consecutive failed attempt at time
lockStart: counter at the maximum and the lockout deadline installed. -/
def lockedState (st0 : AuthState) (lockStart : Nat) : AuthState :=
  { st0 with attempts := some 3, lockoutUntil := some (lockStart + lockoutDuration) }

/-! Helper lemmas about the lockout step of the guard. -/

theorem isLockedOutStep_none (now : Nat) (st : AuthState) (hl : st.lockoutUntil = none) :
    isLockedOutStep now st = (false, st) := by
  unfold isLockedOutStep
  rw [hl]

theorem isLockedOutStep_active (now : Nat) (st : AuthState) (e : Nat)
    (hl : st.lockoutUntil = some e) (hn : now < e) :
    isLockedOutStep now st = (true, st) := by
  unfold isLockedOutStep
  rw [hl]
  simp [hn]

theorem isLockedOutStep_expired (now : Nat) (st : AuthState) (e : Nat)
    (hl : st.lockoutUntil = some e) (hn : e ≤ now) :
    isLockedOutStep now st = (false, { st with lockoutUntil := none, attempts := none }) := by
  unfold isLockedOutStep
  rw [hl]
  simp [Nat.not_lt.mpr hn]

/-- Behaviour of authenticate on a wrong credential while no lockout is
stored and the incremented counter stays below the maximum. -/
theorem authenticate_wrong_below (now : Nat) (st : AuthState) (u p : String) (a : Nat)
    (hl : st.lockoutUntil = none) (ha : st.attempts.getD 0 = a)
    (hc : credCheck st.credentials u (hashPassword p) = false)
    (hlt : a + 1 < maxAttempts) :
    authenticate now st u p =
      ({ success := false
         message := "Credenciales incorrectas. " ++ toString (maxAttempts - (a + 1))
           ++ " intentos restantes."
         attempts := some (a + 1)
         remainingAttempts := some (maxAttempts - (a + 1)) },
       { st with attempts := some (a + 1) }) := by
  simp only [authenticate, isLockedOutStep_none now st hl, ha, hc]
  simp [Nat.not_le.mpr hlt]

/-- Behaviour of authenticate on a wrong credential while no lockout is
stored and the incremented counter reaches the maximum: the lockout deadline
is installed. -/
theorem authenticate_wrong_locks (now : Nat) (st : AuthState) (u p : String) (a : Nat)
    (hl : st.lockoutUntil = none) (ha : st.attempts.getD 0 = a)
    (hc : credCheck st.credentials u (hashPassword p) = false)
    (hge : maxAttempts ≤ a + 1) :
    authenticate now st u p =
      ({ success := false
         message := "Demasiados intentos fallidos. Cuenta bloqueada por 15 minutos."
         isLockedOut := true
         attempts := some (a + 1) },
       { st with attempts := some (a + 1), lockoutUntil := some (now + lockoutDuration) }) := by
  simp only [authenticate, isLockedOutStep_none now st hl, ha, hc]
  simp [hge]

/-- Behaviour of authenticate while the current time is before the stored
lockout deadline: the lockout result is returned, the state is untouched,
and neither the counter nor the credentials are consulted. -/
theorem authenticate_while_locked (now : Nat) (st : AuthState) (u p : String) (e : Nat)
    (hl : st.lockoutUntil = some e) (hn : now < e) :
    authenticate now st u p =
      ({ success := false
         message := "Cuenta bloqueada. Intente nuevamente en "
           ++ toString ((e - now + 59999) / 60000) ++ " minutos."
         isLockedOut := true }, st) := by
  simp only [authenticate, isLockedOutStep_active now st e hl hn]
  simp [getRemainingLockoutTime, hl]

/-- Behaviour of authenticate on a correct credential once the stored
lockout deadline has passed: the lockout and counter are self-cleared and
the call succeeds. -/
theorem authenticate_expired_correct (now : Nat) (st : AuthState) (u p : String) (e : Nat)
    (hl : st.lockoutUntil = some e) (hn : e ≤ now)
    (hc : credCheck st.credentials u (hashPassword p) = true) :
    authenticate now st u p =
      ({ success := true, message := "Acceso autorizado", user := some u },
       { st with
         isAuthenticated := true
         currentUser := some u
         session := some { user := u, loginTime := now, lastActivity := now }
         attempts := none
         lockoutUntil := none }) := by
  simp only [authenticate, isLockedOutStep_expired now st e hl hn]
  simp [hc]

/-- C2: starting from the not-locked-out state with failed-attempt counter
zero, three consecutive authenticate calls with wrong credentials leave the
guard locked out with counter three and deadline fifteen minutes after the
third call; any authenticate call before the deadline returns the lockout
result (isLockedOut true) with the state untouched — so the counter is not
incremented and the credentials are not consulted; and once the current
time reaches the deadline, a call with a correct password succeeds,
clearing the counter and the lockout. -/
theorem lockout_lifecycle
    (st0 : AuthState) (n1 n2 n3 : Nat) (u1 p1 u2 p2 u3 p3 : String)
    (h0a : st0.attempts = none) (h0b : st0.lockoutUntil = none)
    (hw1 : credCheck st0.credentials u1 (hashPassword p1) = false)
    (hw2 : credCheck st0.credentials u2 (hashPassword p2) = false)
    (hw3 : credCheck st0.credentials u3 (hashPassword p3) = false) :
    (authenticate n3 (authenticate n2 (authenticate n1 st0 u1 p1).2 u2 p2).2 u3 p3).1.isLockedOut
        = true ∧
    (authenticate n3 (authenticate n2 (authenticate n1 st0 u1 p1).2 u2 p2).2 u3 p3).2
        = lockedState st0 n3 ∧
    (∀ n u p, n < n3 + lockoutDuration →
      authenticate n (lockedState st0 n3) u p =
        ({ success := false
           message := "Cuenta bloqueada. Intente nuevamente en "
             ++ toString ((n3 + lockoutDuration - n + 59999) / 60000) ++ " minutos."
           isLockedOut := true }, lockedState st0 n3)) ∧
    (∀ n u p, n3 + lockoutDuration ≤ n →
      credCheck st0.credentials u (hashPassword p) = true →
      (authenticate n (lockedState st0 n3) u p).1.success = true ∧
      (authenticate n (lockedState st0 n3) u p).2.attempts = none ∧
      (authenticate n (lockedState st0 n3) u p).2.lockoutUntil = none ∧
      (authenticate n (lockedState st0 n3) u p).2.currentUser = some u) := by
  have e1 : (authenticate n1 st0 u1 p1).2 = { st0 with attempts := some 1 } := by
    rw [authenticate_wrong_below n1 st0 u1 p1 0 h0b (by simp [h0a]) hw1 (by decide)]
  have e2 : (authenticate n2 { st0 with attempts := some 1 } u2 p2).2
      = { st0 with attempts := some 2 } := by
    rw [authenticate_wrong_below n2 { st0 with attempts := some 1 } u2 p2 1 h0b rfl hw2
      (by decide)]
  have e3 := authenticate_wrong_locks n3 { st0 with attempts := some 2 } u3 p3 2 h0b rfl hw3
    (by decide)
  refine ⟨?_, ?_, ?_, ?_⟩
  · rw [e1, e2, e3]
  · rw [e1, e2, e3]
    rfl
  · intro n u p hn
    exact authenticate_while_locked n (lockedState st0 n3) u p (n3 + lockoutDuration) rfl hn
  · intro n u p hn hc
    rw [authenticate_expired_correct n (lockedState st0 n3) u p (n3 + lockoutDuration) rfl hn hc]
    exact ⟨rfl, rfl, rfl, rfl⟩

/-- Witness for C2: three wrong attempts against the default credential
table lock the guard; a call during the window is rejected as locked; a
correct admin login at the deadline succeeds. -/
theorem lockout_lifecycle_witness :
    (authenticate 2 (authenticate 1 (authenticate 0 initialAuthState "intruso" "a").2
        "intruso" "b").2 "intruso" "c").1.isLockedOut = true ∧
    (authenticate 500000 (lockedState initialAuthState 2) "x" "y").1.isLockedOut = true ∧
    (authenticate 900002 (lockedState initialAuthState 2) "admin" "CG2024").1.success = true := by
  have h := lockout_lifecycle initialAuthState 0 1 2 "intruso" "a" "intruso" "b" "intruso" "c"
    rfl rfl (by decide) (by decide) (by decide)
  refine ⟨h.1, ?_, ?_⟩
  · rw [h.2.2.1 500000 "x" "y" (by decide)]
  · exact (h.2.2.2 900002 "admin" "CG2024" (by decide) (by decide)).1

/-- C8: the failed-attempt counter and the lockout are stored in single
storage cells shared by all usernames: three failed calls lock the guard
regardless of which usernames were used in each attempt, and while the
lockout is active every call — for any username, including one presenting
correct credentials — returns isLockedOut true with success false and
leaves the state untouched. -/
theorem lockout_shared_across_usernames
    (st0 : AuthState) (n1 n2 n3 : Nat) (u1 p1 u2 p2 u3 p3 : String)
    (h0a : st0.attempts = none) (h0b : st0.lockoutUntil = none)
    (hw1 : credCheck st0.credentials u1 (hashPassword p1) = false)
    (hw2 : credCheck st0.credentials u2 (hashPassword p2) = false)
    (hw3 : credCheck st0.credentials u3 (hashPassword p3) = false) :
    (authenticate n3 (authenticate n2 (authenticate n1 st0 u1 p1).2 u2 p2).2 u3 p3).2.lockoutUntil
        = some (n3 + lockoutDuration) ∧
    (∀ n u p, n < n3 + lockoutDuration →
      (authenticate n (lockedState st0 n3) u p).1.isLockedOut = true ∧
      (authenticate n (lockedState st0 n3) u p).1.success = false ∧
      (authenticate n (lockedState st0 n3) u p).2 = lockedState st0 n3) := by
  have e1 : (authenticate n1 st0 u1 p1).2 = { st0 with attempts := some 1 } := by
    rw [authenticate_wrong_below n1 st0 u1 p1 0 h0b (by simp [h0a]) hw1 (by decide)]
  have e2 : (authenticate n2 { st0 with attempts := some 1 } u2 p2).2
      = { st0 with attempts := some 2 } := by
    rw [authenticate_wrong_below n2 { st0 with attempts := some 1 } u2 p2 1 h0b rfl hw2
      (by decide)]
  have e3 := authenticate_wrong_locks n3 { st0 with attempts := some 2 } u3 p3 2 h0b rfl hw3
    (by decide)
  refine ⟨?_, ?_⟩
  · rw [e1, e2, e3]
  · intro n u p hn
    rw [authenticate_while_locked n (lockedState st0 n3) u p (n3 + lockoutDuration) rfl hn]
    exact ⟨rfl, rfl, rfl⟩

/-- Witness for C8: three failures under three different usernames (one of
them unknown to the table) lock the guard, and the locked guard then
rejects the admin user even with the correct password. -/
theorem lockout_shared_across_usernames_witness :
    (authenticate 2 (authenticate 1 (authenticate 0 initialAuthState "admin" "wrong").2
        "ghost" "nope").2 "gerente" "bad").2.lockoutUntil = some 900002 ∧
    (authenticate 3 (lockedState initialAuthState 2) "admin" "CG2024").1.isLockedOut = true ∧
    (authenticate 3 (lockedState initialAuthState 2) "admin" "CG2024").1.success = false ∧
    credCheck initialAuthState.credentials "admin" (hashPassword "CG2024") = true := by
  have h := lockout_shared_across_usernames initialAuthState 0 1 2 "admin" "wrong"
    "ghost" "nope" "gerente" "bad" rfl rfl (by decide) (by decide) (by decide)
  have h2 := h.2 3 "admin" "CG2024" (by decide)
  exact ⟨h.1, h2.1, h2.2.1, by decide⟩

/-- C10: authenticate depends on the password only through hashPassword —
two passwords with equal hashes produce identical results and identical
successor states from any state; hence any password whose hash collides
with the stored hash of a user's password is accepted. -/
theorem authenticate_factors_through_hash
    (now : Nat) (st : AuthState) (u p1 p2 : String)
    (h : hashPassword p1 = hashPassword p2) :
    authenticate now st u p1 = authenticate now st u p2 := by
  simp only [authenticate, h]

/-- Witness for C10: the distinct passwords Aa and BB collide under the
32-bit hash, so authentication treats them identically. -/
theorem authenticate_factors_through_hash_witness :
    ("Aa" ≠ "BB") ∧ hashPassword "Aa" = hashPassword "BB" ∧
    authenticate 0 initialAuthState "admin" "Aa"
      = authenticate 0 initialAuthState "admin" "BB" := by
  exact ⟨by decide, by decide,
    authenticate_factors_through_hash 0 initialAuthState "admin" "Aa" "BB" (by decide)⟩

/-! Helper lemmas about the list operations of the ledger. -/

theorem find?_cons_pos (f : Product → Bool) (a : Product) (l : List Product)
    (h : f a = true) : (a :: l).find? f = some a :=
  List.find?_cons_of_pos l h

theorem find?_cons_neg (f : Product → Bool) (a : Product) (l : List Product)
    (h : ¬ f a = true) : (a :: l).find? f = l.find? f :=
  List.find?_cons_of_neg l h

/-- Replacing a record by one with the same id leaves the id sequence of
the inventory unchanged. -/
theorem replaceById_map_id (l : List Product) (prod : Product) :
    (replaceById l prod).map Product.id = l.map Product.id := by
  induction l with
  | nil => rfl
  | cons q rest ih =>
    unfold replaceById
    by_cases h : (q.id == prod.id)
    · rw [if_pos h]
      simp only [List.map_cons]
      rw [show prod.id = q.id from (eq_of_beq h).symm]
    · rw [if_neg h]
      simp only [List.map_cons, ih]

/-- When the first SKU match in an inventory with distinct ids is p, the
inventory obtained by replacing p (by id) with a record carrying the same
id and SKU has that record as its first SKU match. -/
theorem find?_replaceById (l : List Product) (s : String) (p newp : Product)
    (hfind : l.find? (fun r => r.sku == s) = some p)
    (hnodup : (l.map Product.id).Nodup)
    (hid : newp.id = p.id) (hsku : newp.sku = p.sku) :
    (replaceById l newp).find? (fun r => r.sku == s) = some newp := by
  induction l with
  | nil => simp at hfind
  | cons q rest ih =>
    by_cases hq : ((q.sku == s) = true)
    · rw [find?_cons_pos (fun r => r.sku == s) q rest hq] at hfind
      have hqp : q = p := by injection hfind
      unfold replaceById
      rw [if_pos (by rw [hqp, hid]; exact beq_self_eq_true p.id)]
      exact find?_cons_pos (fun r => r.sku == s) newp rest
        (by show (newp.sku == s) = true; rw [hsku, ← hqp]; exact hq)
    · rw [find?_cons_neg (fun r => r.sku == s) q rest hq] at hfind
      have hpmem : p ∈ rest := List.mem_of_find?_eq_some hfind
      have hnodup' := hnodup
      rw [List.map_cons, List.nodup_cons] at hnodup'
      have hqid : ¬ ((q.id == newp.id) = true) := by
        intro hbeq
        exact hnodup'.1 (by
          rw [eq_of_beq hbeq, hid]
          exact List.mem_map_of_mem Product.id hpmem)
      unfold replaceById
      rw [if_neg hqid, find?_cons_neg (fun r => r.sku == s) q (replaceById rest newp) hq]
      exact ih hfind hnodup'.2

/-- Successful processSale, fully evaluated: the resolved product's
quantity drops by the sold amount, the product is put to the store and
replaced in memory, and the snapshot sale record is appended. -/
theorem processSale_ok_eq (now : Nat) (m : InventoryManager) (identifier : String)
    (q : Int) (p : Product) (hfind : findProduct m identifier = some p)
    (hq : q ≤ p.quantity) :
    processSale now m identifier q =
      (.ok ({ productId := p.id, sku := p.sku, name := p.name, quantity := q,
              unitPrice := p.price, total := p.price * (q : ℚ), date := now },
            { p with quantity := p.quantity - q, updatedAt := now }),
       { db := { products := dbPutProduct m.db.products
                   { p with quantity := p.quantity - q, updatedAt := now }
                 sales := m.db.sales ++
                   [{ productId := p.id, sku := p.sku, name := p.name, quantity := q,
                      unitPrice := p.price, total := p.price * (q : ℚ), date := now }] }
         inventory := replaceById m.inventory
                        { p with quantity := p.quantity - q, updatedAt := now }
         nextId := m.nextId }) := by
  simp only [processSale, hfind]
  rw [if_neg (not_lt.mpr hq)]
  rfl

/-- Insufficient-stock processSale: the rejection happens before any
mutation, so the manager state is returned unchanged. -/
theorem processSale_insufficient_eq (now : Nat) (m : InventoryManager)
    (identifier : String) (q : Int) (p : Product)
    (hfind : findProduct m identifier = some p) (hq : p.quantity < q) :
    processSale now m identifier q = (.error (.insufficientStock p.quantity), m) := by
  simp only [processSale, hfind]
  rw [if_pos hq]

/-- The duplicate-SKU probe succeeds exactly when some product of the
inventory or the store carries the upper-cased candidate SKU. -/
theorem getProductBySKU_isSome_iff (m : InventoryManager) (s : String) :
    (getProductBySKU m s).isSome ↔ ∃ q ∈ allProducts m, q.sku = jsToUpper s := by
  unfold getProductBySKU allProducts
  cases h : m.inventory.find? (fun p => p.sku == jsToUpper s) with
  | some r =>
    simp only [Option.isSome_some, true_iff]
    exact ⟨r, List.mem_append_left _ (List.mem_of_find?_eq_some h),
      by have := List.find?_some h; simpa using this⟩
  | none =>
    rw [List.find?_eq_none] at h
    simp only [List.find?_isSome, List.mem_append]
    constructor
    · rintro ⟨x, hx, hs⟩
      exact ⟨x, Or.inr hx, by simpa using hs⟩
    · rintro ⟨x, hx | hx, hs⟩
      · exact absurd (by simpa using hs) (by simpa using h x hx)
      · exact ⟨x, hx, by simpa using hs⟩

/-- The duplicate-barcode probe succeeds exactly when some product of the
inventory or the store carries the candidate barcode. -/
theorem getProductByBarcode_isSome_iff (m : InventoryManager) (b : String) :
    (getProductByBarcode m b).isSome ↔ ∃ q ∈ allProducts m, q.barcode = some b := by
  unfold getProductByBarcode allProducts
  cases h : m.inventory.find? (fun p => p.barcode == some b) with
  | some r =>
    simp only [Option.isSome_some, true_iff]
    exact ⟨r, List.mem_append_left _ (List.mem_of_find?_eq_some h),
      by have := List.find?_some h; simpa using this⟩
  | none =>
    rw [List.find?_eq_none] at h
    simp only [List.find?_isSome, List.mem_append]
    constructor
    · rintro ⟨x, hx, hs⟩
      exact ⟨x, Or.inr hx, by simpa using hs⟩
    · rintro ⟨x, hx | hx, hs⟩
      · exact absurd (by simpa using hs) (by simpa using h x hx)
      · exact ⟨x, hx, by simpa using hs⟩

/-- An addProduct call either leaves the in-memory inventory unchanged (on
any failure) or appends exactly the given product. -/
theorem addProduct_inventory_cases (m : InventoryManager) (p : Product) :
    (addProduct m p).2.inventory = m.inventory ∨
    (addProduct m p).2.inventory = m.inventory ++ [p] := by
  unfold addProduct
  cases h : validateProduct p with
  | error e => left; rfl
  | ok u =>
    by_cases h1 : (getProductBySKU m p.sku).isSome = true
    · rw [if_pos h1]; left; rfl
    · rw [if_neg h1]
      by_cases h2 : (jsTruthyStr p.barcode
          && (getProductByBarcode m (p.barcode.getD "")).isSome) = true
      · rw [if_pos h2]; left; rfl
      · rw [if_neg h2]; right; rfl

/-- C1: when the identifier resolves to a ledger product p, processSale
with a quantity at most p.quantity succeeds: p's quantity becomes its old
value minus q (in the returned product, the in-memory inventory and the
store), and the appended sale record snapshots the product's sku, name and
unitPrice, with total equal to unitPrice times q; when q exceeds
p.quantity, processSale fails with the insufficient-stock error and the
entire manager state is unchanged. -/
theorem processSale_spec (now : Nat) (m : InventoryManager) (identifier : String)
    (q : Int) (p : Product) (hfind : findProduct m identifier = some p) :
    (q ≤ p.quantity →
      processSale now m identifier q =
        (.ok ({ productId := p.id, sku := p.sku, name := p.name, quantity := q,
                unitPrice := p.price, total := p.price * (q : ℚ), date := now },
              { p with quantity := p.quantity - q, updatedAt := now }),
         { db := { products := dbPutProduct m.db.products
                     { p with quantity := p.quantity - q, updatedAt := now }
                   sales := m.db.sales ++
                     [{ productId := p.id, sku := p.sku, name := p.name, quantity := q,
                        unitPrice := p.price, total := p.price * (q : ℚ), date := now }] }
           inventory := replaceById m.inventory
                          { p with quantity := p.quantity - q, updatedAt := now }
           nextId := m.nextId })) ∧
    (p.quantity < q →
      processSale now m identifier q = (.error (.insufficientStock p.quantity), m)) :=
  ⟨fun hq => processSale_ok_eq now m identifier q p hfind hq,
   fun hq => processSale_insufficient_eq now m identifier q p hfind hq⟩

/-- Witness for C1: selling 10 of the 150-unit sample product yields
quantity 140 and a sale whose total is the price times 10; selling 200
fails with the insufficient-stock error and leaves the manager unchanged. -/
theorem processSale_spec_witness :
    (10 : Int) ≤ wProduct.quantity ∧
    processSale 5 wManager "TOR001" 10 =
      (.ok ({ productId := 1, sku := "TOR001", name := "Tornillo", quantity := 10,
              unitPrice := wProduct.price, total := wProduct.price * ((10 : Int) : ℚ),
              date := 5 },
            { wProduct with quantity := 140, updatedAt := 5 }),
       { db := { products := [{ wProduct with quantity := 140, updatedAt := 5 }]
                 sales := [{ productId := 1, sku := "TOR001", name := "Tornillo",
                             quantity := 10, unitPrice := wProduct.price,
                             total := wProduct.price * ((10 : Int) : ℚ), date := 5 }] }
         inventory := [{ wProduct with quantity := 140, updatedAt := 5 }]
         nextId := 2 }) ∧
    wProduct.quantity < 200 ∧
    processSale 5 wManager "TOR001" 200 = (.error (.insufficientStock 150), wManager) := by
  refine ⟨by decide, ?_, by decide, ?_⟩
  · rw [(processSale_spec 5 wManager "TOR001" 10 wProduct rfl).1 (by decide)]
    rfl
  · exact (processSale_spec 5 wManager "TOR001" 200 wProduct rfl).2 (by decide)

/-- C3: adjustStock looks up by id only; an unknown id fails with the
not-found error and leaves the state unchanged; a delta that would drive
the quantity negative fails with the negative-stock error and leaves the
state unchanged; otherwise the quantity becomes quantity plus delta, in
the returned product, the store and the in-memory inventory. -/
theorem adjustStock_spec (now : Nat) (m : InventoryManager) (pid : Nat) (delta : Int) :
    (m.inventory.find? (fun r => r.id == pid) = none →
      adjustStock now m pid delta = (.error .notFound, m)) ∧
    (∀ p, m.inventory.find? (fun r => r.id == pid) = some p →
      (p.quantity + delta < 0 →
        adjustStock now m pid delta = (.error .negativeStockAdjust, m)) ∧
      (0 ≤ p.quantity + delta →
        adjustStock now m pid delta =
          (.ok { p with quantity := p.quantity + delta, updatedAt := now },
           { db := { products := dbPutProduct m.db.products
                       { p with quantity := p.quantity + delta, updatedAt := now }
                     sales := m.db.sales }
             inventory := replaceById m.inventory
                            { p with quantity := p.quantity + delta, updatedAt := now }
             nextId := m.nextId }))) := by
  constructor
  · intro hnone
    simp only [adjustStock, hnone]
  · intro p hp
    constructor
    · intro hneg
      simp only [adjustStock, hp]
      rw [if_pos hneg]
    · intro hpos
      simp only [adjustStock, hp]
      rw [if_neg (not_lt.mpr hpos)]
      rfl

/-- Witness for C3: an unknown id fails not-found; delta -151 on the
150-unit sample product fails with the negative-stock error leaving the
manager unchanged; delta -150 succeeds with quantity 0. -/
theorem adjustStock_spec_witness :
    adjustStock 9 wManager 7 1 = (.error .notFound, wManager) ∧
    wProduct.quantity + (-151) < 0 ∧
    adjustStock 9 wManager 1 (-151) = (.error .negativeStockAdjust, wManager) ∧
    (adjustStock 9 wManager 1 (-150)).1 = .ok { wProduct with quantity := 0, updatedAt := 9 } := by
  refine ⟨(adjustStock_spec 9 wManager 7 1).1 rfl, by decide,
    ((adjustStock_spec 9 wManager 1 (-151)).2 wProduct rfl).1 (by decide), ?_⟩
  rw [((adjustStock_spec 9 wManager 1 (-150)).2 wProduct rfl).2 (by decide)]
  rfl

/-- C9: for a resolved ledger product with non-negative quantity and price
and any non-positive q, processSale never fails with the
insufficient-stock error: it succeeds, the product's quantity becomes
quantity minus q (a strict increase when q is negative), and the appended
sale record carries quantity q and the non-positive total price times q. -/
theorem processSale_nonpositive_spec (now : Nat) (m : InventoryManager)
    (identifier : String) (q : Int) (p : Product)
    (hfind : findProduct m identifier = some p)
    (hq : q ≤ 0) (hquant : 0 ≤ p.quantity) (hprice : 0 ≤ p.price) :
    (∀ avail, (processSale now m identifier q).1 ≠ .error (.insufficientStock avail)) ∧
    (processSale now m identifier q).1 =
      .ok ({ productId := p.id, sku := p.sku, name := p.name, quantity := q,
             unitPrice := p.price, total := p.price * (q : ℚ), date := now },
           { p with quantity := p.quantity - q, updatedAt := now }) ∧
    (processSale now m identifier q).2.db.sales =
      m.db.sales ++ [{ productId := p.id, sku := p.sku, name := p.name, quantity := q,
                       unitPrice := p.price, total := p.price * (q : ℚ), date := now }] ∧
    p.price * (q : ℚ) ≤ 0 ∧
    (q < 0 → p.quantity < p.quantity - q) := by
  have hok := processSale_ok_eq now m identifier q p hfind (le_trans hq hquant)
  refine ⟨?_, ?_, ?_, ?_, ?_⟩
  · intro avail
    rw [hok]
    simp
  · rw [hok]
  · rw [hok]
  · have hqq : (q : ℚ) ≤ 0 := by exact_mod_cast hq
    exact mul_nonpos_of_nonneg_of_nonpos hprice hqq
  · intro hlt
    omega

/-- Witness for C9: selling -5 of the sample product succeeds, raising the
quantity from 150 to 155 and appending a sale with non-positive total. -/
theorem processSale_nonpositive_spec_witness :
    (processSale 13 wManager "TOR001" (-5)).1 ≠ .error (.insufficientStock 150) ∧
    (processSale 13 wManager "TOR001" (-5)).1 =
      .ok ({ productId := 1, sku := "TOR001", name := "Tornillo", quantity := -5,
             unitPrice := wProduct.price, total := wProduct.price * ((-5 : Int) : ℚ),
             date := 13 },
           { wProduct with quantity := 155, updatedAt := 13 }) ∧
    wProduct.price * ((-5 : Int) : ℚ) ≤ 0 ∧
    wProduct.quantity < (155 : Int) := by
  have h := processSale_nonpositive_spec 13 wManager "TOR001" (-5) wProduct rfl
    (by decide) (by decide) (by decide)
  refine ⟨h.1 150, ?_, h.2.2.2.1, h.2.2.2.2 (by decide)⟩
  rw [h.2.1]
  rfl

/-- C4: for a product passing validation, against a ledger whose stored
SKUs are upper-cased, addProduct fails with a DuplicateError — leaving the
state unchanged — exactly when some existing product (in memory or in the
store) has the same SKU up to case, or the candidate's barcode is set
(non-empty) and some existing product has the same barcode; in every other
case it succeeds and the product is appended to the store and the
in-memory inventory. -/
theorem addProduct_duplicate_spec (m : InventoryManager) (p : Product)
    (hvalid : validateProduct p = .ok ())
    (hupper : ∀ q ∈ allProducts m, jsToUpper q.sku = q.sku) :
    (((∃ q ∈ allProducts m, jsToUpper q.sku = jsToUpper p.sku) ∨
      (∃ b, p.barcode = some b ∧ b ≠ "" ∧ ∃ q ∈ allProducts m, q.barcode = some b)) →
      (addProduct m p).2 = m ∧
      ∃ e, (addProduct m p).1 = .error e ∧ e.isDuplicate = true) ∧
    ((¬ ∃ q ∈ allProducts m, jsToUpper q.sku = jsToUpper p.sku) →
     (¬ ∃ b, p.barcode = some b ∧ b ≠ "" ∧ ∃ q ∈ allProducts m, q.barcode = some b) →
      addProduct m p =
        (.ok p,
         { db := { products := m.db.products ++ [p], sales := m.db.sales }
           inventory := m.inventory ++ [p]
           nextId := m.nextId })) := by
  have hsku_iff : (getProductBySKU m p.sku).isSome = true ↔
      (∃ q ∈ allProducts m, jsToUpper q.sku = jsToUpper p.sku) := by
    rw [getProductBySKU_isSome_iff]
    constructor
    · rintro ⟨x, hx, he⟩
      exact ⟨x, hx, by rw [hupper x hx, he]⟩
    · rintro ⟨x, hx, he⟩
      exact ⟨x, hx, by rw [← hupper x hx, he]⟩
  have hbc_iff : (jsTruthyStr p.barcode
        && (getProductByBarcode m (p.barcode.getD "")).isSome) = true ↔
      (∃ b, p.barcode = some b ∧ b ≠ "" ∧ ∃ q ∈ allProducts m, q.barcode = some b) := by
    cases hb : p.barcode with
    | none => simp [jsTruthyStr]
    | some b =>
      by_cases hbe : b = ""
      · subst hbe
        simp [jsTruthyStr]
      · simp [jsTruthyStr, hbe, getProductByBarcode_isSome_iff]
  constructor
  · rintro (hdup | hdup)
    · have hs : (getProductBySKU m p.sku).isSome = true := hsku_iff.mpr hdup
      simp only [addProduct, hvalid, hs]
      exact ⟨rfl, .duplicateSKU p.sku, rfl, rfl⟩
    · by_cases hs : (getProductBySKU m p.sku).isSome = true
      · simp only [addProduct, hvalid, hs]
        exact ⟨rfl, .duplicateSKU p.sku, rfl, rfl⟩
      · have hb := hbc_iff.mpr hdup
        simp only [addProduct, hvalid, hb]
        rw [if_neg hs]
        exact ⟨rfl, .duplicateBarcode (p.barcode.getD ""), rfl, rfl⟩
  · intro hnsku hnbc
    have hs : ¬ (getProductBySKU m p.sku).isSome = true := fun h => hnsku (hsku_iff.mp h)
    have hb : ¬ (jsTruthyStr p.barcode
        && (getProductByBarcode m (p.barcode.getD "")).isSome) = true :=
      fun h => hnbc (hbc_iff.mp h)
    simp only [addProduct, hvalid]
    rw [if_neg hs, if_neg hb]

/-- Witness for C4: against a ledger holding ABC001 with barcode 111, a
candidate whose SKU differs only in case is rejected, a candidate with a
distinct SKU but the same barcode is rejected, and a conflict-free
candidate is appended. -/
theorem addProduct_duplicate_spec_witness :
    (addProduct w4m w4dupSku).2 = w4m ∧
    (addProduct w4m w4dupSku).1 = .error (.duplicateSKU "abc001") ∧
    (addProduct w4m w4dupBar).2 = w4m ∧
    (addProduct w4m w4dupBar).1 = .error (.duplicateBarcode "111") ∧
    addProduct w4m w4ok =
      (.ok w4ok,
       { db := { products := [w4p1, w4ok], sales := [] }
         inventory := [w4p1, w4ok]
         nextId := 2 }) := by
  have h1 := (addProduct_duplicate_spec w4m w4dupSku rfl (by decide)).1
    (Or.inl ⟨w4p1, by decide, by decide⟩)
  have h2 := (addProduct_duplicate_spec w4m w4dupBar rfl (by decide)).1
    (Or.inr ⟨"111", rfl, by decide, w4p1, by decide, rfl⟩)
  have h3 := (addProduct_duplicate_spec w4m w4ok rfl (by decide)).2
    (by decide)
    (by rintro ⟨b, hb, -, -⟩; exact Option.noConfusion hb)
  refine ⟨h1.1, rfl, h2.1, rfl, ?_⟩
  rw [h3]
  rfl

/-- Counterexample for C5: the input badInput has every required field
present, a well-formed SKU and name, and a negative price; the claim says
createProduct must fail with a ValidationError, but the source's
createProduct performs no validation: it returns the constructed product
with price -1, which the separate validateProduct check (run only by
addProduct) rejects. -/
theorem createProduct_skips_validation_counterexample :
    badInput.price < 0 ∧
    (createProduct emptyManager 0 badInput).1.price = -1 ∧
    validateProduct (createProduct emptyManager 0 badInput).1 = .error .negativePrice := by
  refine ⟨by decide, by decide, by rfl⟩

/-- C5 amended: createProduct is pure construction — it normalizes
(trimmed strings, upper-cased SKU), assigns the next id and timestamps,
and never validates; the validation rules of the claim (required fields,
non-negative price/quantity/minStock, minimum lengths of sku and name) are
exactly the ones enforced by validateProduct, which addProduct runs before
its duplicate checks, failing with that ValidationError and leaving the
state unchanged.  (Required numeric fields are modelled post-parse, so the
required check can only fire on an empty string field.) -/
theorem createProduct_pure_validate_at_add (m : InventoryManager) (now : Nat)
    (input : ProductInput) (p : Product) :
    (createProduct m now input).1 =
      { id := m.nextId, sku := jsToUpper (jsTrim input.sku), name := jsTrim input.name,
        category := input.category, price := input.price, quantity := input.quantity,
        minStock := input.minStock, barcode := jsOptTrim input.barcode,
        supplier := jsOptTrim input.supplier, createdAt := now, updatedAt := now } ∧
    (createProduct m now input).2 = { m with nextId := m.nextId + 1 } ∧
    (validateProduct p = .ok () ↔
      (p.sku ≠ "" ∧ p.name ≠ "" ∧ p.category ≠ "" ∧ 0 ≤ p.price ∧ 0 ≤ p.quantity ∧
       0 ≤ p.minStock ∧ 3 ≤ p.sku.length ∧ 3 ≤ p.name.length)) ∧
    (∀ e, validateProduct p = .error e →
      e.isValidation = true ∧ addProduct m p = (.error e, m)) := by
  refine ⟨rfl, rfl, ?_, ?_⟩
  · unfold validateProduct
    split_ifs with h1 h2 h3 h4 h5 h6 h7 h8 <;>
      simp_all [not_lt, Nat.not_lt]
  · intro e he
    constructor
    · unfold validateProduct at he
      split_ifs at he <;> simp_all <;> subst he <;> rfl
    · simp only [addProduct, he]

/-- Witness for C5 amended: the invalid badProduct is rejected by
validateProduct, so addProduct fails with that ValidationError and leaves
the manager unchanged, while the valid sample product passes the
validation conditions. -/
theorem createProduct_pure_validate_at_add_witness :
    validateProduct badProduct = .error .negativePrice ∧
    InvError.negativePrice.isValidation = true ∧
    addProduct emptyManager badProduct = (.error .negativePrice, emptyManager) ∧
    validateProduct wProduct = .ok () := by
  have h := createProduct_pure_validate_at_add emptyManager 0 badInput badProduct
  have h2 := createProduct_pure_validate_at_add emptyManager 0 badInput wProduct
  refine ⟨rfl, (h.2.2.2 .negativePrice rfl).1, (h.2.2.2 .negativePrice rfl).2, ?_⟩
  exact h2.2.2.1.mpr
    ⟨by decide, by decide, by decide, by decide, by decide, by decide, by decide, by decide⟩

/-- Counterexample for C6: create and add two products (ids 1 and 2),
delete the product with id 2, reload the inventory from the store — which
resets nextId to the maximum surviving id plus one, that is 2 — and create
another product: it is assigned id 2, the id of the deleted product, so
ids of deleted products can be reassigned after a reload. -/
theorem id_reuse_counterexample :
    c6created2.1.id = 2 ∧
    (deleteProduct c6s2 c6created2.1.id).1 = .ok true ∧
    c6s3.inventory.map Product.id = [1] ∧
    c6s4.nextId = 2 ∧
    c6created3.1.id = 2 ∧
    c6created3.1.id = c6created2.1.id := by
  refine ⟨by decide, by rfl, by decide, by decide, by decide, by decide⟩

/-- C6 amended: within a session (without reloading from the store),
createProduct assigns the current value of the monotonic counter nextId
and increments it, so successively assigned ids strictly increase; under
the invariant that every live id is below nextId, the assigned id differs
from every live id, and adding the created product preserves the
invariant.  (As the counterexample shows, reloading the ledger from the
store after deleting the highest-id product resets the counter and can
reassign a deleted id, so ids are not never-reused across reloads.) -/
theorem createProduct_fresh_monotonic (m : InventoryManager) (now : Nat)
    (input : ProductInput) (hinv : ∀ q ∈ m.inventory, q.id < m.nextId) :
    (createProduct m now input).1.id = m.nextId ∧
    (createProduct m now input).2.nextId = m.nextId + 1 ∧
    (∀ q ∈ m.inventory, q.id ≠ (createProduct m now input).1.id) ∧
    (∀ q ∈ (addProduct (createProduct m now input).2 (createProduct m now input).1).2.inventory,
      q.id < (createProduct m now input).2.nextId) := by
  refine ⟨rfl, rfl, ?_, ?_⟩
  · intro q hq
    exact Nat.ne_of_lt (hinv q hq)
  · intro q hq
    rcases addProduct_inventory_cases (createProduct m now input).2 (createProduct m now input).1
        with hcase | hcase
    · rw [hcase] at hq
      exact Nat.lt_succ_of_lt (hinv q hq)
    · rw [hcase, List.mem_append] at hq
      rcases hq with hq | hq
      · exact Nat.lt_succ_of_lt (hinv q hq)
      · rw [List.mem_singleton] at hq
        rw [hq]
        exact Nat.lt_succ_self m.nextId

/-- Witness for C6 amended: creating a product against the sample manager
(live id 1, nextId 2) assigns the fresh id 2, increments the counter to 3,
and the live product's id differs from the assigned one. -/
theorem createProduct_fresh_monotonic_witness :
    (createProduct wManager 3 c6inputA).1.id = 2 ∧
    (createProduct wManager 3 c6inputA).2.nextId = 3 ∧
    wProduct.id ≠ (createProduct wManager 3 c6inputA).1.id ∧
    (createProduct wManager 3 c6inputA).1.id < 3 := by
  have h := createProduct_fresh_monotonic wManager 3 c6inputA (by decide)
  refine ⟨h.1, h.2.1, h.2.2.1 wProduct (by decide), ?_⟩
  exact h.2.2.2 (createProduct wManager 3 c6inputA).1 (by decide)

/-- C7: for a ledger product resolved by SKU in an inventory with distinct
ids and non-negative stock, restockProduct of a positive q followed by
processSale of the same q succeeds and returns the product's quantity to
its original value, in the returned product and in the inventory entry. -/
theorem restock_sale_roundtrip (m : InventoryManager) (identifier : String)
    (q : Int) (p : Product) (now1 now2 : Nat)
    (hfind : m.inventory.find? (fun r => r.sku == jsToUpper identifier) = some p)
    (hnodup : (m.inventory.map Product.id).Nodup)
    (hquant : 0 ≤ p.quantity) (hq : 0 < q) :
    ∃ p1 m1 sale p2 m2,
      restockProduct now1 m identifier q = (.ok p1, m1) ∧
      p1.quantity = p.quantity + q ∧
      processSale now2 m1 identifier q = (.ok (sale, p2), m2) ∧
      p2.quantity = p.quantity ∧
      m2.inventory.find? (fun r => r.sku == jsToUpper identifier) = some p2 := by
  have hfp : findProduct m identifier = some p := by
    unfold findProduct
    rw [hfind]
  have hrestock : restockProduct now1 m identifier q =
      (.ok { p with quantity := p.quantity + q, updatedAt := now1 },
       { db := { products := dbPutProduct m.db.products
                   { p with quantity := p.quantity + q, updatedAt := now1 }
                 sales := m.db.sales }
         inventory := replaceById m.inventory
                        { p with quantity := p.quantity + q, updatedAt := now1 }
         nextId := m.nextId }) := by
    simp only [restockProduct, hfp]
    rfl
  have hfind1 : (replaceById m.inventory
        { p with quantity := p.quantity + q, updatedAt := now1 }).find?
        (fun r => r.sku == jsToUpper identifier) =
      some { p with quantity := p.quantity + q, updatedAt := now1 } :=
    find?_replaceById m.inventory (jsToUpper identifier) p _ hfind hnodup rfl rfl
  have hnodup1 : ((replaceById m.inventory
        { p with quantity := p.quantity + q, updatedAt := now1 }).map Product.id).Nodup := by
    rw [replaceById_map_id]
    exact hnodup
  have hfp1 : findProduct
      { db := { products := dbPutProduct m.db.products
                  { p with quantity := p.quantity + q, updatedAt := now1 }
                sales := m.db.sales }
        inventory := replaceById m.inventory
                       { p with quantity := p.quantity + q, updatedAt := now1 }
        nextId := m.nextId } identifier =
      some { p with quantity := p.quantity + q, updatedAt := now1 } := by
    unfold findProduct
    rw [hfind1]
  have hsale := processSale_ok_eq now2
    { db := { products := dbPutProduct m.db.products
                { p with quantity := p.quantity + q, updatedAt := now1 }
              sales := m.db.sales }
      inventory := replaceById m.inventory
                     { p with quantity := p.quantity + q, updatedAt := now1 }
      nextId := m.nextId } identifier q
    { p with quantity := p.quantity + q, updatedAt := now1 } hfp1 (by simp only []; omega)
  refine ⟨{ p with quantity := p.quantity + q, updatedAt := now1 }, _, _,
    { p with quantity := p.quantity + q - q, updatedAt := now2 }, _,
    hrestock, rfl, hsale, ?_, ?_⟩
  · simp only []
    omega
  · exact find?_replaceById _ (jsToUpper identifier)
      { p with quantity := p.quantity + q, updatedAt := now1 } _ hfind1 hnodup1 rfl rfl

/-- Witness for C7: restocking the 150-unit sample product by 7 and then
selling 7 returns its quantity to 150. -/
theorem restock_sale_roundtrip_witness :
    ∃ p1 m1 sale p2 m2,
      restockProduct 11 wManager "TOR001" 7 = (.ok p1, m1) ∧
      p1.quantity = wProduct.quantity + 7 ∧
      processSale 12 m1 "TOR001" 7 = (.ok (sale, p2), m2) ∧
      p2.quantity = wProduct.quantity ∧
      m2.inventory.find? (fun r => r.sku == jsToUpper "TOR001") = some p2 :=
  restock_sale_roundtrip wManager "TOR001" 7 wProduct 11 12 rfl (by decide)
    (by decide) (by decide)

end ComercialGarcia

